import Mathlib

/-!
Shallow embedding of the segmind-functions client library.

The Python sources embedded here are:
- `segmind_api.py` — `SegmindAPI.__init__`, `SegmindAPI._handle_response`,
  `SegmindAPI.image_to_image`, `SegmindAPI.text_to_image`, `SegmindAPI.face_swap`;
- `examples.py` — `run_with_backoff`;
- `segmind_utils.py` — `image_to_base64`, `base64_to_image`.

Python dictionaries are modelled as insertion-ordered association lists with
string values; raised exceptions become `Except` errors carrying the message
that `str(e)` would produce; the `requests` network layer and the filesystem
are passed in as explicit function parameters, and every outbound HTTP request
is returned in a trace list so that "performs no network call" is a provable
statement.  PIL's image codecs are external to the repository and are passed
in as explicit save/open parameters where a claim needs them.
-/

/-- Errors raised by the client.  Each constructor corresponds to one raise
site in the Python source and carries the text that `str(e)` would produce
(`httpError` additionally records the status code that built the message). -/
inductive SegError where
  | configurationError (msg : String)
  | validationError (msg : String)
  | httpError (status : Nat) (msg : String)
  | fileNotFound (msg : String)
  | unboundLocal (msg : String)
deriving DecidableEq, Repr

/-- Message text of an error, i.e. Python's `str(e)`. -/
def SegError.message : SegError → String
  | .configurationError m => m
  | .validationError m => m
  | .httpError _ m => m
  | .fileNotFound m => m
  | .unboundLocal m => m

/-- Result of a successful `_handle_response` classification: a decoded PIL
image (carrying the body bytes handed to `Image.open`), a parsed JSON mapping,
or the raw byte content. -/
inductive DecodedResult where
  | image (content : List Nat)
  | structured (data : List (String × String))
  | rawBytes (content : List Nat)
deriving DecidableEq, Repr

/-- A `requests.Response` as consumed by the client: the status code, the
`Content-Type` header (absent when the header is missing), the outcome of
`response.json()` (`none` models a JSON parse failure raising `ValueError`),
and the raw body bytes `response.content`. -/
structure HTTPResponse where
  status_code : Nat
  contentType : Option String
  jsonBody : Option (List (String × String))
  content : List Nat
deriving DecidableEq, Repr

/-- An outbound `requests.post` call: URL, JSON body and headers. -/
structure Request where
  url : String
  jsonBody : List (String × String)
  headers : List (String × String)
deriving DecidableEq, Repr

deriving instance DecidableEq for Except

/-- Truthiness of an optional Python string: `None` and `""` are falsy. -/
def truthy : Option String → Bool
  | none => false
  | some s => !s.isEmpty

/-- Python's `s.startswith(pre)`, on the character level. -/
def strStartsWith (s pre : String) : Bool := pre.toList.isPrefixOf s.toList

/-- Lookup in an association-list dictionary (`d[k]` when `k in d`). -/
def lookupStr (d : List (String × String)) (k : String) : Option String :=
  (d.find? (fun p => p.1 == k)).map Prod.snd

/-- Python dict assignment `d[k] = v`: overwrite in place when the key is
present, otherwise append preserving insertion order. -/
def pySet (d : List (String × String)) (k v : String) : List (String × String) :=
  if d.any (fun p => p.1 == k) then d.map (fun p => if p.1 == k then (k, v) else p)
  else d ++ [(k, v)]

/-- Python `d.update(kvs)`: assign each key/value pair of `kvs` in order. -/
def pyUpdate (d kvs : List (String × String)) : List (String × String) :=
  kvs.foldl (fun acc kv => pySet acc kv.1 kv.2) d

/-- Number of non-`None` entries, Python's `sum(x is not None for x in l)`. -/
def countProvided (l : List (Option String)) : Nat :=
  l.countP (fun o => o.isSome)

/-- Base URL of the remote service (`SegmindAPI.BASE_URL`). -/
def BASE_URL : String := "https://api.segmind.com/v1/"

/-- The constructed client: the resolved API key and the request headers
built in `SegmindAPI.__init__`. -/
structure SegmindClient where
  api_key : String
  headers : List (String × String)
deriving DecidableEq, Repr

/-- Client value built by `SegmindAPI.__init__` once the key is resolved. -/
def clientFor (key : String) : SegmindClient :=
  ⟨key, [("x-api-key", key), ("Content-Type", "application/json")]⟩

/-- Message of the `ValueError` raised by `SegmindAPI.__init__`. -/
def apiKeyErrMsg : String :=
  "API key must be provided either as an argument or as SEGMIND_API_KEY environment variable."

/-- Embedding of `SegmindAPI.__init__`: `self.api_key = api_key or
os.environ.get("SEGMIND_API_KEY")`, then `if not self.api_key: raise
ValueError(...)`, else build the headers.  `envKey` is the value of the
`SEGMIND_API_KEY` environment variable (`none` when unset). -/
def segmind_init (api_key envKey : Option String) : Except SegError SegmindClient :=
  let key := if truthy api_key then api_key else envKey
  if truthy key then .ok (clientFor (key.getD ""))
  else .error (.configurationError apiKeyErrMsg)

/-- Error message assembled by the failure branch of
`SegmindAPI._handle_response`: the generic status text, extended with the
body's `error` field when the body parses as JSON and has one. -/
def httpErrorMessage (status : Nat) (body : Option (List (String × String))) : String :=
  let base := "API request failed with status code " ++ toString status
  match body with
  | some data =>
    match lookupStr data "error" with
    | some e => base ++ ": " ++ e
    | none => base
  | none => base

/-- Embedding of `SegmindAPI._handle_response`: status `200` yields a decoded
image when the `Content-Type` header starts with `image/`, else the parsed
JSON body, else the raw bytes; any other status raises an `Exception` with the
assembled message. -/
def handle_response (r : HTTPResponse) : Except SegError DecodedResult :=
  if r.status_code = 200 then
    if strStartsWith (r.contentType.getD "") "image/" then
      .ok (.image r.content)
    else
      match r.jsonBody with
      | some data => .ok (.structured data)
      | none => .ok (.rawBytes r.content)
  else
    .error (.httpError r.status_code (httpErrorMessage r.status_code r.jsonBody))

/-- Embedding of `SegmindAPI.text_to_image`: one POST to the model endpoint,
classified by `_handle_response`.  The second component is the trace of
network requests performed. -/
def text_to_image_run (c : SegmindClient) (model_name : String)
    (params : List (String × String)) (net : Request → HTTPResponse) :
    Except SegError DecodedResult × List Request :=
  let req : Request := ⟨BASE_URL ++ model_name, params, c.headers⟩
  (handle_response (net req), [req])

/-- Message of the `ValueError` raised by `SegmindAPI.image_to_image`. -/
def exactlyOneMsg : String :=
  "Exactly one of image_url, image_path, or image_base64 must be provided."

/-- Alphabet of standard base64 (RFC 4648), as used by `base64.b64encode`. -/
def b64Alphabet : List Char :=
  "ABCDEFGHIJKLMNOPQRSTUVWXYZabcdefghijklmnopqrstuvwxyz0123456789+/".toList

/-- Character for a six-bit group. -/
def b64Char (n : Nat) : Char := b64Alphabet.getD n 'A'

/-- Index of a character in the base64 alphabet. -/
def b64Index (ch : Char) : Option Nat := b64Alphabet.findIdx? (· == ch)

/-- Standard base64 encoding of a byte list (`base64.b64encode`): three bytes
become four alphabet characters, a final one- or two-byte group is padded
with `=`. -/
def b64encode : List Nat → List Char
  | [] => []
  | [a] => [b64Char (a / 4), b64Char (a % 4 * 16), '=', '=']
  | [a, b] => [b64Char (a / 4), b64Char (a % 4 * 16 + b / 16), b64Char (b % 16 * 4), '=']
  | a :: b :: c :: rest =>
    b64Char (a / 4) :: b64Char (a % 4 * 16 + b / 16) :: b64Char (b % 16 * 4 + c / 64) ::
      b64Char (c % 64) :: b64encode rest

/-- Standard base64 decoding (`base64.b64decode` on validly padded input):
groups of four characters become three bytes, with `=` padding allowed only
in the final group; invalid input yields `none` (Python raises
`binascii.Error`). -/
def b64decode : List Char → Option (List Nat)
  | [] => some []
  | c1 :: c2 :: c3 :: c4 :: rest =>
    (b64Index c1).bind fun s1 =>
    (b64Index c2).bind fun s2 =>
    if c3 = '=' then
      if c4 = '=' ∧ rest = [] then some [s1 * 4 + s2 / 16] else none
    else
      (b64Index c3).bind fun s3 =>
      if c4 = '=' then
        if rest = [] then some [s1 * 4 + s2 / 16, s2 % 16 * 16 + s3 / 4] else none
      else
        (b64Index c4).bind fun s4 =>
        (b64decode rest).bind fun tail =>
        some ((s1 * 4 + s2 / 16) :: (s2 % 16 * 16 + s3 / 4) :: (s3 % 4 * 64 + s4) :: tail)
  | _ => none

/-- Embedding of `SegmindAPI.image_to_image`.  Validation happens first; the
dispatch branch then tests each source for truthiness, reading and inline
encoding the file for the local-path source.  When every branch is skipped
(all sources falsy) the trailing `self._handle_response(response)` references
the never-assigned local `response`, which Python reports as an unclassified
`UnboundLocalError`.  `readFile` models the filesystem (`none` makes `open`
raise `FileNotFoundError`); the second component is the network trace. -/
def image_to_image_run (c : SegmindClient) (model_name : String)
    (image_url image_path image_base64 : Option String)
    (params : List (String × String))
    (readFile : String → Option (List Nat))
    (net : Request → HTTPResponse) :
    Except SegError DecodedResult × List Request :=
  if countProvided [image_url, image_path, image_base64] ≠ 1 then
    (.error (.validationError exactlyOneMsg), [])
  else
    let url := BASE_URL ++ model_name
    if truthy image_url then
      let p := pySet params "image" (image_url.getD "")
      let req : Request := ⟨url, p, c.headers⟩
      (handle_response (net req), [req])
    else if truthy image_path then
      match readFile (image_path.getD "") with
      | none => (.error (.fileNotFound (image_path.getD "")), [])
      | some bytes =>
        let p := pySet params "image"
          ("data:image/jpeg;base64," ++ String.mk (b64encode bytes))
        let req : Request := ⟨url, p, c.headers⟩
        (handle_response (net req), [req])
    else if truthy image_base64 then
      let p := pySet params "image" (image_base64.getD "")
      let req : Request := ⟨url, p, c.headers⟩
      (handle_response (net req), [req])
    else
      (.error (.unboundLocal "response"), [])

/-- Embedding of `SegmindAPI.face_swap`: an optional mask URL is written
under the payload's `mask` key when truthy, the keyword arguments are merged
on top, and the call is forwarded to `image_to_image` with the fixed
`face-swap` endpoint. -/
def face_swap_run (c : SegmindClient)
    (image_url image_path image_base64 mask_url : Option String)
    (kwargs : List (String × String))
    (readFile : String → Option (List Nat))
    (net : Request → HTTPResponse) :
    Except SegError DecodedResult × List Request :=
  let params := pyUpdate (if truthy mask_url then [("mask", mask_url.getD "")] else []) kwargs
  image_to_image_run c "face-swap" image_url image_path image_base64 params readFile net

/-- Check whether `needle` occurs as a contiguous substring of `hay`
(Python's `needle in hay` on strings), on character lists. -/
def hasSubSeq (needle : List Char) : List Char → Bool
  | [] => needle.isEmpty
  | ch :: rest => needle.isPrefixOf (ch :: rest) || hasSubSeq needle rest

/-- Outcome of one `run_with_backoff` invocation: the returned value or the
propagated exception message, the number of times the wrapped function was
called, and the trace of `time.sleep` durations. -/
structure BackoffResult (α : Type) where
  result : Except String α
  attempts : Nat
  sleeps : List ℚ
deriving Repr

/-- Message of the unreachable terminal `raise` in `run_with_backoff`. -/
def backoffFailMsg (max_retries : Nat) : String :=
  "Failed after " ++ toString max_retries ++ " retries"

/-- Loop body of `run_with_backoff` (`examples.py`).  `func n` is the outcome
of the n-th call of the wrapped zero-argument function (`.error` carries
`str(e)` of the raised exception); `jit n` is the `random.uniform(0, 0.1)`
sample drawn before the n-th retry.  An error is retried exactly when its
message contains `"429"` and `retries < max_retries`; the sleep duration is
`delay + jitter` with `jitter = jit retries * delay`, after which the delay
doubles. -/
def backoffLoop {α : Type} (func : Nat → Except String α) (max_retries : Nat)
    (jit : Nat → ℚ) (retries : Nat) (delay : ℚ) : BackoffResult α :=
  if _h : retries ≤ max_retries then
    match func retries with
    | .ok v => ⟨.ok v, 1, []⟩
    | .error msg =>
      if _h2 : hasSubSeq ("429".toList) msg.toList = true ∧ retries < max_retries then
        let jitter := jit retries * delay
        let rest := backoffLoop func max_retries jit (retries + 1) (delay * 2)
        ⟨rest.result, rest.attempts + 1, (delay + jitter) :: rest.sleeps⟩
      else ⟨.error msg, 1, []⟩
  else ⟨.error (backoffFailMsg max_retries), 0, []⟩
termination_by max_retries + 1 - retries
decreasing_by omega

/-- Embedding of `run_with_backoff`: start the loop with zero retries and the
initial delay. -/
def run_with_backoff {α : Type} (func : Nat → Except String α) (max_retries : Nat)
    (initial_delay : ℚ) (jit : Nat → ℚ) : BackoffResult α :=
  backoffLoop func max_retries jit 0 initial_delay

/-- Wrap a stubbed response sequence as the function handed to
`run_with_backoff`: the n-th call dispatches once, receives `resp n` and
classifies it with `_handle_response`; a raised error surfaces as its
`str(e)` message. -/
def asFunc (resp : Nat → HTTPResponse) : Nat → Except String DecodedResult := fun n =>
  match handle_response (resp n) with
  | .ok d => .ok d
  | .error e => .error e.message

/-- Lower-case an ASCII string (Python `str.lower` on ASCII input). -/
def asciiLower (s : String) : String :=
  String.mk (s.toList.map (fun ch =>
    if 'A' ≤ ch ∧ ch ≤ 'Z' then Char.ofNat (ch.toNat + 32) else ch))

/-- Embedding of `segmind_utils.image_to_base64`: serialize the image in the
given format via the PIL codec `save` (an external collaborator passed in
explicitly), base64-encode the bytes and prepend the data-URL prefix. -/
def image_to_base64 {Img : Type} (save : String → Img → List Nat)
    (image : Img) (format : String) : String :=
  "data:image/" ++ asciiLower format ++ ";base64," ++
    String.mk (b64encode (save format image))

/-- Everything after the first comma when one is present, the whole string
otherwise: Python's `s.split(",", 1)[1]` guarded by `if "," in s`. -/
def afterComma1 (s : String) : String :=
  if s.toList.contains ',' then
    String.mk ((s.toList.dropWhile (fun ch => ch != ',')).drop 1)
  else s

/-- Embedding of `segmind_utils.base64_to_image`: strip a data-URL prefix,
base64-decode, and hand the bytes to the PIL codec `openImg` (external,
passed in explicitly; `Image.open`). -/
def base64_to_image {Img : Type} (openImg : List Nat → Option Img)
    (base64_str : String) : Option Img :=
  match b64decode (afterComma1 base64_str).toList with
  | some bytes => openImg bytes
  | none => none

/-- A response sequence consisting only of rate-limited answers. -/
def respAll429 : Nat → HTTPResponse := fun _ => ⟨429, none, none, []⟩

/-- Two rate-limited answers followed by a successful JSON answer. -/
def respSeq429twice : Nat → HTTPResponse := fun n =>
  if n < 2 then ⟨429, none, none, []⟩ else ⟨200, none, some [("foo", "bar")], []⟩

/-- A server-error sequence whose JSON error text happens to mention 429. -/
def resp500mentioning429 : Nat → HTTPResponse := fun _ =>
  ⟨500, none, some [("error", "Too many requests, error 429")], []⟩

/-! Helper lemmas shared by the claim theorems. -/

lemma handle_response_of_ne200 (r : HTTPResponse) (h : r.status_code ≠ 200) :
    handle_response r
      = .error (.httpError r.status_code (httpErrorMessage r.status_code r.jsonBody)) := by
  simp [handle_response, h]

lemma truthy_none : truthy none = false := rfl

lemma truthy_some_ne {s : String} (h : s ≠ "") : truthy (some s) = true := by
  cases hb : s.isEmpty with
  | false => simp [truthy, hb]
  | true => exact absurd ((String.isEmpty_iff s).mp hb) h

/-- C1 — dispatch with zero or at least two image sources raises the
validation error and performs no network request. -/
theorem C1_im2im_validation (c : SegmindClient) (model : String)
    (iu ip ib : Option String) (params : List (String × String))
    (readFile : String → Option (List Nat)) (net : Request → HTTPResponse)
    (h : countProvided [iu, ip, ib] = 0 ∨ 2 ≤ countProvided [iu, ip, ib]) :
    image_to_image_run c model iu ip ib params readFile net
      = (.error (.validationError exactlyOneMsg), []) := by
  have hne : countProvided [iu, ip, ib] ≠ 1 := by rcases h with h | h <;> omega
  simp [image_to_image_run, hne]

theorem C1_im2im_validation_witness :
    image_to_image_run (clientFor "k") "sd-outpainting" (some "u1") (some "p1") none []
        (fun _ => none) (fun _ => ⟨200, none, none, []⟩)
      = (.error (.validationError exactlyOneMsg), []) :=
  C1_im2im_validation (clientFor "k") "sd-outpainting" (some "u1") (some "p1") none []
    (fun _ => none) (fun _ => ⟨200, none, none, []⟩) (Or.inr (by decide))

/-- C10 — dispatch with exactly one image source that is present but falsy
(the empty string) passes the one-of-three validation, skips every dispatch
branch, and fails by referencing the unassigned `response` local: an
unclassified error, not a validation error, and no network request. -/
theorem C10_falsy_source_unbound (c : SegmindClient) (model : String)
    (iu ip ib : Option String) (params : List (String × String))
    (readFile : String → Option (List Nat)) (net : Request → HTTPResponse)
    (hcount : countProvided [iu, ip, ib] = 1)
    (h1 : truthy iu = false) (h2 : truthy ip = false) (h3 : truthy ib = false) :
    image_to_image_run c model iu ip ib params readFile net
      = (.error (.unboundLocal "response"), []) := by
  simp [image_to_image_run, hcount, h1, h2, h3]

theorem C10_falsy_source_unbound_witness :
    image_to_image_run (clientFor "k") "background-removal" (some "") none none []
        (fun _ => none) (fun _ => ⟨200, none, none, []⟩)
      = (.error (.unboundLocal "response"), []) :=
  C10_falsy_source_unbound (clientFor "k") "background-removal" (some "") none none []
    (fun _ => none) (fun _ => ⟨200, none, none, []⟩) (by decide) (by decide) (by decide)
    (by decide)

/-- C2 — with no explicit key and no environment value construction fails
with the configuration error; with either one set (non-empty) construction
succeeds, the explicit argument taking precedence, and the resolved key is
the verbatim `x-api-key` header of every request later dispatched. -/
theorem C2_credential_resolution (k model iu : String) (env : Option String)
    (params : List (String × String)) (readFile : String → Option (List Nat))
    (net : Request → HTTPResponse) (hk : k ≠ "") (hiu : iu ≠ "") :
    segmind_init none none = .error (.configurationError apiKeyErrMsg)
    ∧ segmind_init (some k) env = .ok (clientFor k)
    ∧ segmind_init none (some k) = .ok (clientFor k)
    ∧ lookupStr (clientFor k).headers "x-api-key" = some k
    ∧ (∀ req ∈ (text_to_image_run (clientFor k) model params net).2,
        lookupStr req.headers "x-api-key" = some k)
    ∧ (∀ req ∈ (image_to_image_run (clientFor k) model (some iu) none none
          params readFile net).2,
        lookupStr req.headers "x-api-key" = some k) := by
  have hkt : truthy (some k) = true := truthy_some_ne hk
  refine ⟨rfl, ?_, ?_, ?_, ?_, ?_⟩
  · simp [segmind_init, hkt]
  · simp [segmind_init, truthy_none, hkt]
  · simp [clientFor, lookupStr]
  · intro req hreq
    simp [text_to_image_run] at hreq
    simp [hreq, clientFor, lookupStr]
  · intro req hreq
    simp [image_to_image_run, countProvided, truthy_some_ne hiu] at hreq
    simp [hreq, clientFor, lookupStr]

theorem C2_credential_resolution_witness :
    segmind_init none none = .error (.configurationError apiKeyErrMsg)
    ∧ segmind_init (some "sk-1") none = .ok (clientFor "sk-1")
    ∧ segmind_init none (some "sk-1") = .ok (clientFor "sk-1")
    ∧ lookupStr (clientFor "sk-1").headers "x-api-key" = some "sk-1"
    ∧ (∀ req ∈ (text_to_image_run (clientFor "sk-1") "sdxl1.0-txt2img" []
          (fun _ => ⟨200, none, none, []⟩)).2,
        lookupStr req.headers "x-api-key" = some "sk-1")
    ∧ (∀ req ∈ (image_to_image_run (clientFor "sk-1") "sdxl1.0-txt2img" (some "http://img") none none []
          (fun _ => none) (fun _ => ⟨200, none, none, []⟩)).2,
        lookupStr req.headers "x-api-key" = some "sk-1") :=
  C2_credential_resolution "sk-1" "sdxl1.0-txt2img" "http://img" none []
    (fun _ => none) (fun _ => ⟨200, none, none, []⟩) (by decide) (by decide)

/-- C3 — classification examples: status 200 with an `image/jpeg` content
type decodes to an image; status 200 with the JSON body mapping `foo` to
`bar` yields that structured mapping; status 401 with an `error` field of
`Invalid API key` raises an HTTP error whose message contains both `401` and
`Invalid API key`. -/
theorem C3_classification_examples :
    handle_response ⟨200, some "image/jpeg", none, [137, 80, 78, 71]⟩
      = .ok (.image [137, 80, 78, 71])
    ∧ handle_response ⟨200, some "application/json", some [("foo", "bar")], []⟩
      = .ok (.structured [("foo", "bar")])
    ∧ (∃ m, handle_response ⟨401, some "application/json",
          some [("error", "Invalid API key")], []⟩
        = .error (.httpError 401 m)
        ∧ hasSubSeq ("401".toList) m.toList = true
        ∧ hasSubSeq ("Invalid API key".toList) m.toList = true) := by
  refine ⟨by decide, by decide,
    "API request failed with status code 401: Invalid API key", by decide, by decide, by decide⟩

/-- C4 — against the response sequence 429, 429, 200 with five allowed
retries, the call succeeds after exactly two retries (three attempts); the
sleep before retry number n is `initial_delay * 2 ^ n` plus a jitter of
`jit n` times that delay, which lies in the interval from 0 to one tenth of
the delay whenever the uniform sample `jit n` does; and the cumulative sleep
is at least three times the initial delay. -/
theorem C4_backoff_schedule (initial_delay : ℚ) (jit : Nat → ℚ)
    (hd : 0 ≤ initial_delay) (hj : ∀ n, 0 ≤ jit n ∧ jit n ≤ 1 / 10) :
    (run_with_backoff (asFunc respSeq429twice) 5 initial_delay jit).result
      = .ok (.structured [("foo", "bar")])
    ∧ (run_with_backoff (asFunc respSeq429twice) 5 initial_delay jit).attempts = 3
    ∧ (run_with_backoff (asFunc respSeq429twice) 5 initial_delay jit).sleeps
      = [initial_delay * 2 ^ 0 + jit 0 * (initial_delay * 2 ^ 0),
         initial_delay * 2 ^ 1 + jit 1 * (initial_delay * 2 ^ 1)]
    ∧ (∀ n, 0 ≤ jit n * (initial_delay * 2 ^ n)
        ∧ jit n * (initial_delay * 2 ^ n) ≤ 1 / 10 * (initial_delay * 2 ^ n))
    ∧ 3 * initial_delay
      ≤ ((run_with_backoff (asFunc respSeq429twice) 5 initial_delay jit).sleeps).sum := by
  have hf0 : asFunc respSeq429twice 0 = .error "API request failed with status code 429" := by
    simp only [asFunc, respSeq429twice]; decide
  have hf1 : asFunc respSeq429twice 1 = .error "API request failed with status code 429" := by
    simp only [asFunc, respSeq429twice]; decide
  have hf2 : asFunc respSeq429twice 2 = .ok (.structured [("foo", "bar")]) := by
    simp only [asFunc, respSeq429twice]; decide
  have hrun : run_with_backoff (asFunc respSeq429twice) 5 initial_delay jit
      = ⟨.ok (.structured [("foo", "bar")]), 3,
         [initial_delay + jit 0 * initial_delay,
          initial_delay * 2 + jit 1 * (initial_delay * 2)]⟩ := by
    simp +decide [run_with_backoff, backoffLoop, hf0, hf1, hf2]
  refine ⟨by rw [hrun], by rw [hrun], by rw [hrun]; ring_nf, ?_, ?_⟩
  · intro n
    constructor
    · exact mul_nonneg (hj n).1 (by positivity)
    · exact mul_le_mul_of_nonneg_right (hj n).2 (by positivity)
  · rw [hrun]
    have h0 := mul_nonneg (hj 0).1 hd
    have h1 := mul_nonneg (hj 1).1 hd
    simp only [List.sum_cons, List.sum_nil]
    nlinarith [h0, h1]

theorem C4_backoff_schedule_witness :
    (run_with_backoff (asFunc respSeq429twice) 5 1 (fun _ => 0)).result
      = .ok (.structured [("foo", "bar")])
    ∧ (run_with_backoff (asFunc respSeq429twice) 5 1 (fun _ => 0)).attempts = 3
    ∧ (run_with_backoff (asFunc respSeq429twice) 5 1 (fun _ => 0)).sleeps
      = [1 * 2 ^ 0 + 0 * (1 * 2 ^ 0), 1 * 2 ^ 1 + 0 * (1 * 2 ^ 1)]
    ∧ (∀ n, (0 : ℚ) ≤ 0 * (1 * 2 ^ n) ∧ (0 : ℚ) * (1 * 2 ^ n) ≤ 1 / 10 * (1 * 2 ^ n))
    ∧ (3 : ℚ) * 1
      ≤ ((run_with_backoff (asFunc respSeq429twice) 5 1 (fun _ => 0)).sleeps).sum :=
  C4_backoff_schedule 1 (fun _ => 0) (by norm_num) (fun _ => by norm_num)

/-- C5 — against a constant sequence of 429 responses with two allowed
retries, the policy performs exactly three attempts and then propagates the
last rate-limit error unchanged (the classifier's own 429 message, not a
wrapping message). -/
theorem C5_retry_exhaustion (initial_delay : ℚ) (jit : Nat → ℚ) :
    (run_with_backoff (asFunc respAll429) 2 initial_delay jit).attempts = 3
    ∧ (run_with_backoff (asFunc respAll429) 2 initial_delay jit).result
      = .error "API request failed with status code 429" := by
  have hf : ∀ n, asFunc respAll429 n
      = .error "API request failed with status code 429" := fun n => by
    simp only [asFunc, respAll429]; decide
  simp +decide [run_with_backoff, backoffLoop, hf]

theorem C5_retry_exhaustion_witness :
    (run_with_backoff (asFunc respAll429) 2 1 (fun _ => 0)).attempts = 3
    ∧ (run_with_backoff (asFunc respAll429) 2 1 (fun _ => 0)).result
      = .error "API request failed with status code 429" :=
  C5_retry_exhaustion 1 (fun _ => 0)

/-- C6 counterexample — the classifier raises for status 204 even though 204
lies inside the 200 to 299 range: the success test is status equal to 200,
not membership of the 2xx range. -/
theorem C6_counterexample_204_raises :
    200 ≤ 204 ∧ 204 ≤ 299
    ∧ handle_response ⟨204, some "application/json", some [("status", "processing")], []⟩
      = .error (.httpError 204 "API request failed with status code 204") :=
  ⟨by decide, by decide, by decide⟩

/-- C6 amended — the classifier raises an HTTP error exactly when the status
differs from 200; on every non-200 status the raised error carries the
message built from the status code plus the body's error field when the body
parses as structured data. -/
theorem C6_amended_classifier (r : HTTPResponse) :
    ((handle_response r).isOk ↔ r.status_code = 200)
    ∧ (r.status_code ≠ 200 →
        handle_response r
          = .error (.httpError r.status_code (httpErrorMessage r.status_code r.jsonBody))) := by
  constructor
  · constructor
    · intro h
      by_contra hne
      rw [handle_response_of_ne200 r hne] at h
      simp [Except.isOk, Except.toBool] at h
    · intro h
      rw [handle_response, if_pos h]
      split
      · rfl
      · split <;> rfl
  · exact handle_response_of_ne200 r

theorem C6_amended_classifier_witness :
    handle_response ⟨404, none, some [("error", "not found")], []⟩
      = .error (.httpError 404 "API request failed with status code 404: not found") :=
  (C6_amended_classifier ⟨404, none, some [("error", "not found")], []⟩).2 (by decide)

/-- C7 counterexample — a status-500 response whose JSON error text mentions
429 is retried (a second attempt and a sleep happen), because the retry test
looks for the substring 429 in the exception message, not at the status. -/
theorem C7_counterexample_message_retry :
    (resp500mentioning429 0).status_code = 500
    ∧ (run_with_backoff (asFunc resp500mentioning429) 1 1 (fun _ => 0)).attempts = 2
    ∧ (run_with_backoff (asFunc resp500mentioning429) 1 1 (fun _ => 0)).sleeps = [1] := by
  have hf : ∀ n, asFunc resp500mentioning429 n
      = .error "API request failed with status code 500: Too many requests, error 429" :=
    fun n => by simp only [asFunc, resp500mentioning429]; decide
  refine ⟨rfl, ?_, ?_⟩ <;> simp +decide [run_with_backoff, backoffLoop, hf]

/-- C7 amended — an error raised for a non-200 response is propagated
immediately, with no retry and no sleep, whenever its message does not
contain the substring 429; the retry decision tests the message text, not
the status code. -/
theorem C7_amended_no429_propagates (resp : Nat → HTTPResponse) (max_retries : Nat)
    (initial_delay : ℚ) (jit : Nat → ℚ)
    (hstatus : (resp 0).status_code ≠ 200)
    (hmsg : hasSubSeq ("429".toList)
        (httpErrorMessage (resp 0).status_code (resp 0).jsonBody).toList = false) :
    run_with_backoff (asFunc resp) max_retries initial_delay jit
      = ⟨.error (httpErrorMessage (resp 0).status_code (resp 0).jsonBody), 1, []⟩ := by
  have hf : asFunc resp 0
      = .error (httpErrorMessage (resp 0).status_code (resp 0).jsonBody) := by
    simp only [asFunc, handle_response_of_ne200 (resp 0) hstatus, SegError.message]
  have hcond : ¬(hasSubSeq ("429".toList)
      (httpErrorMessage (resp 0).status_code (resp 0).jsonBody).toList = true
      ∧ 0 < max_retries) := by
    intro hc
    rw [hmsg] at hc
    exact Bool.false_ne_true hc.1
  rw [run_with_backoff, backoffLoop, dif_pos (Nat.zero_le max_retries), hf]
  exact dif_neg hcond

theorem C7_amended_no429_propagates_witness :
    run_with_backoff (asFunc (fun _ => ⟨404, none, none, []⟩)) 5 1 (fun _ => 0)
      = ⟨.error "API request failed with status code 404", 1, []⟩ :=
  C7_amended_no429_propagates (fun _ => ⟨404, none, none, []⟩) 5 1 (fun _ => 0)
    (by decide) (by decide)

lemma b64Index_b64Char : ∀ n < 64, b64Index (b64Char n) = some n := by decide

lemma b64Char_ne_pad : ∀ n < 64, b64Char n ≠ '=' := by decide

lemma b64_roundtrip (bs : List Nat) (h : ∀ b ∈ bs, b < 256) :
    b64decode (b64encode bs) = some bs := by
  induction bs using b64encode.induct with
  | case1 => rfl
  | case2 a =>
    have ha : a < 256 := h a (by simp)
    rw [b64encode, b64decode]
    rw [b64Index_b64Char _ (by omega), b64Index_b64Char _ (by omega)]
    simp only [Option.some_bind]
    simp only [ite_true, and_self]
    congr 1
    congr 1
    omega
  | case3 a b =>
    have ha : a < 256 := h a (by simp)
    have hb : b < 256 := h b (by simp)
    rw [b64encode, b64decode]
    rw [b64Index_b64Char _ (by omega), b64Index_b64Char _ (by omega)]
    simp only [Option.some_bind]
    rw [if_neg (b64Char_ne_pad _ (by omega))]
    rw [b64Index_b64Char _ (by omega)]
    simp only [Option.some_bind]
    simp only [ite_true]
    congr 1
    congr 1
    · omega
    · congr 1
      omega
  | case4 a b c rest ih =>
    have ha : a < 256 := h a (by simp)
    have hb : b < 256 := h b (by simp)
    have hc : c < 256 := h c (by simp)
    have hrest := ih (fun x hx => h x (by simp [hx]))
    rw [b64encode, b64decode]
    rw [b64Index_b64Char _ (by omega), b64Index_b64Char _ (by omega)]
    simp only [Option.some_bind]
    rw [if_neg (b64Char_ne_pad _ (by omega))]
    rw [b64Index_b64Char _ (by omega)]
    simp only [Option.some_bind]
    rw [if_neg (b64Char_ne_pad _ (by omega))]
    rw [b64Index_b64Char _ (by omega), hrest]
    simp only [Option.some_bind]
    congr 1
    congr 1
    · omega
    · congr 1
      · omega
      · congr 1
        omega

lemma toList_append (a b : String) : (a ++ b).toList = a.toList ++ b.toList := rfl

lemma dropWhile_until_comma (p rest : List Char) (hp : ',' ∉ p) :
    (p ++ ',' :: rest).dropWhile (fun ch => ch != ',') = ',' :: rest := by
  induction p with
  | nil => simp [List.dropWhile]
  | cons x xs ih =>
    have hx : x ≠ ',' := fun he => hp (he ▸ List.mem_cons_self x xs)
    have hxs : ',' ∉ xs := fun hm => hp (List.mem_cons_of_mem x hm)
    simp [List.cons_append, List.dropWhile_cons, bne_iff_ne, hx, ih hxs]

/-- C8 — for any image type and any PIL codec whose PNG serialization is
lossless (opening the saved bytes restores the image) and produces bytes,
encoding an image to the inline base64 data-URL representation and decoding
it back reproduces the image exactly: the repository's wrapping — base64
encoding, the data-URL prefix, and the split at the first comma — preserves
the codec round trip. -/
theorem C8_base64_roundtrip {Img : Type} (save : String → Img → List Nat)
    (openImg : List Nat → Option Img)
    (hlossless : ∀ img, openImg (save "PNG" img) = some img)
    (hbytes : ∀ img, ∀ b ∈ save "PNG" img, b < 256)
    (img : Img) :
    base64_to_image openImg (image_to_base64 save img "PNG") = some img := by
  have hp : ',' ∉ ("data:image/png;base64").toList := by decide
  have hlist : (image_to_base64 save img "PNG").toList
      = ("data:image/png;base64").toList ++ ',' :: b64encode (save "PNG" img) := by
    show ("data:image/" ++ asciiLower "PNG" ++ ";base64," ++
      String.mk (b64encode (save "PNG" img))).toList = _
    rw [toList_append]
    rfl
  have henc := b64_roundtrip (save "PNG" img) (hbytes img)
  have hcontains : ((image_to_base64 save img "PNG").toList).contains ',' = true := by
    rw [hlist]
    simp
  have hafter : (afterComma1 (image_to_base64 save img "PNG")).toList
      = b64encode (save "PNG" img) := by
    rw [afterComma1, if_pos hcontains, hlist, dropWhile_until_comma _ _ hp]
    rfl
  rw [base64_to_image, hafter, henc]
  exact hlossless img

/-- A concrete lossless mock codec: images are bit lists, saved as 0/1 bytes. -/
def bitSave (_format : String) (img : List Bool) : List Nat :=
  img.map (fun bit => if bit then 1 else 0)

/-- Opening bytes produced by `bitSave` recovers the bit list. -/
def bitOpen (bs : List Nat) : Option (List Bool) :=
  some (bs.map (fun n => n == 1))

theorem C8_base64_roundtrip_witness :
    base64_to_image bitOpen (image_to_base64 bitSave [true, false, true] "PNG")
      = some [true, false, true] :=
  C8_base64_roundtrip bitSave bitOpen
    (fun img => by
      unfold bitSave bitOpen
      rw [List.map_map]
      congr 1
      induction img with
      | nil => rfl
      | cons x xs ih => cases x <;> simp [Function.comp, ih])
    (fun img b hb => by
      rcases List.mem_map.mp hb with ⟨bit, _, rfl⟩
      cases bit <;> norm_num)
    [true, false, true]

lemma pySet_append_of_not_key (d : List (String × String)) (k v : String)
    (hk : k ∉ d.map Prod.fst) : pySet d k v = d ++ [(k, v)] := by
  rw [pySet, if_neg]
  intro hc
  rw [List.any_eq_true] at hc
  obtain ⟨p, hp, he⟩ := hc
  have hpk : p.1 = k := by simpa using he
  exact hk (hpk ▸ List.mem_map_of_mem Prod.fst hp)

lemma pyUpdate_append_of_disjoint (d kvs : List (String × String))
    (hnd : (kvs.map Prod.fst).Nodup)
    (hdisj : ∀ k ∈ kvs.map Prod.fst, k ∉ d.map Prod.fst) :
    pyUpdate d kvs = d ++ kvs := by
  induction kvs generalizing d with
  | nil => simp [pyUpdate]
  | cons kv rest ih =>
    have h1 : pySet d kv.1 kv.2 = d ++ [kv] := by
      rw [pySet_append_of_not_key d kv.1 kv.2 (hdisj kv.1 (by simp))]
    have hnd' : (rest.map Prod.fst).Nodup := (List.nodup_cons.mp (by simpa using hnd)).2
    have hdisj' : ∀ k ∈ rest.map Prod.fst, k ∉ (d ++ [kv]).map Prod.fst := by
      intro k hkr
      simp only [List.map_append, List.mem_append, List.map_cons, List.mem_cons]
      rintro (hkd | hkv)
      · exact hdisj k (by simp [hkr]) hkd
      · have : k ≠ kv.1 := by
          intro he
          exact (List.nodup_cons.mp (by simpa using hnd)).1 (he ▸ hkr)
        simp at hkv
        exact this hkv
    calc pyUpdate d (kv :: rest)
        = pyUpdate (pySet d kv.1 kv.2) rest := rfl
      _ = pyUpdate (d ++ [kv]) rest := by rw [h1]
      _ = (d ++ [kv]) ++ rest := ih (d ++ [kv]) hnd' hdisj'
      _ = d ++ kv :: rest := by simp

/-- Formalization of claim C9's consequence for the mask: if the optional
mask received the same exactly-one-of-three source resolution that the
primary image receives, applied independently of the primary image, then a
face-swap call supplying zero mask sources would have to fail with the
one-of-three validation error. -/
def ClaimC9MaskResolution : Prop :=
  ∀ (c : SegmindClient) (iu mu : Option String) (kwargs : List (String × String))
    (readFile : String → Option (List Nat)) (net : Request → HTTPResponse),
    mu = none →
    (face_swap_run c iu none none mu kwargs readFile net).1
      = .error (.validationError exactlyOneMsg)

/-- C9 counterexample — a face-swap call with a valid primary image URL and
no mask at all succeeds, so the mask does not undergo the one-of-three
resolution: the code accepts the mask only as a single optional URL. -/
theorem C9_counterexample_no_mask_validation : ¬ ClaimC9MaskResolution := by
  intro hcl
  have hres := hcl (clientFor "k") (some "http://example.com/face.png") none []
    (fun _ => none) (fun _ => ⟨200, none, some [("foo", "bar")], []⟩) rfl
  exact absurd hres (by decide)

/-- C9 amended — face swap accepts one optional mask parameter, a URL only:
when truthy it is placed verbatim under the payload's `mask` field ahead of
the other keyword arguments, and when absent the `mask` field is omitted; no
one-of-three resolution or validation is applied to the mask, while the
primary image still resolves as usual. -/
theorem C9_amended_mask_url_passthrough (key url m : String)
    (kwargs : List (String × String))
    (readFile : String → Option (List Nat)) (net : Request → HTTPResponse)
    (hu : url ≠ "") (hm : m ≠ "")
    (hnd : (kwargs.map Prod.fst).Nodup)
    (hmask : "mask" ∉ kwargs.map Prod.fst) (himg : "image" ∉ kwargs.map Prod.fst) :
    (face_swap_run (clientFor key) (some url) none none (some m) kwargs readFile net).2
      = [⟨BASE_URL ++ "face-swap", ("mask", m) :: (kwargs ++ [("image", url)]),
          (clientFor key).headers⟩]
    ∧ (face_swap_run (clientFor key) (some url) none none none kwargs readFile net).2
      = [⟨BASE_URL ++ "face-swap", kwargs ++ [("image", url)], (clientFor key).headers⟩] := by
  have hdisj1 : ∀ k ∈ kwargs.map Prod.fst, k ∉ ([("mask", m)].map Prod.fst) := by
    intro k hkr
    simp only [List.map_cons, List.map_nil, List.mem_singleton]
    intro he
    exact hmask (he ▸ hkr)
  have hparams : pyUpdate [("mask", m)] kwargs = ("mask", m) :: kwargs := by
    rw [pyUpdate_append_of_disjoint [("mask", m)] kwargs hnd hdisj1]
    rfl
  have hparams0 : pyUpdate [] kwargs = kwargs := by
    rw [pyUpdate_append_of_disjoint [] kwargs hnd (by simp)]
    rfl
  have hset : pySet (("mask", m) :: kwargs) "image" url
      = ("mask", m) :: (kwargs ++ [("image", url)]) := by
    rw [pySet_append_of_not_key _ _ _ (by
      simp only [List.map_cons, List.mem_cons]
      rintro (he | hkk)
      · exact absurd he.symm (by decide)
      · exact himg hkk)]
    rfl
  have hset0 : pySet kwargs "image" url = kwargs ++ [("image", url)] :=
    pySet_append_of_not_key _ _ _ himg
  constructor
  · simp [face_swap_run, truthy_some_ne hm, hparams, image_to_image_run, countProvided,
      truthy_some_ne hu, hset]
  · simp [face_swap_run, truthy_none, hparams0, image_to_image_run, countProvided,
      truthy_some_ne hu, hset0]

theorem C9_amended_mask_url_passthrough_witness :
    (face_swap_run (clientFor "k") (some "http://u.png") none none (some "http://m.png")
        [("model", "v1")] (fun _ => none)
        (fun _ => ⟨200, none, some [("foo", "bar")], []⟩)).2
      = [⟨BASE_URL ++ "face-swap",
          ("mask", "http://m.png") :: ([("model", "v1")] ++ [("image", "http://u.png")]),
          (clientFor "k").headers⟩]
    ∧ (face_swap_run (clientFor "k") (some "http://u.png") none none none
        [("model", "v1")] (fun _ => none)
        (fun _ => ⟨200, none, some [("foo", "bar")], []⟩)).2
      = [⟨BASE_URL ++ "face-swap", [("model", "v1")] ++ [("image", "http://u.png")],
          (clientFor "k").headers⟩] :=
  C9_amended_mask_url_passthrough "k" "http://u.png" "http://m.png" [("model", "v1")]
    (fun _ => none) (fun _ => ⟨200, none, some [("foo", "bar")], []⟩)
    (by decide) (by decide) (by decide) (by decide) (by decide)
